import Mathlib

/-!
Verification of the GitGrade analysis pipeline.

The development embeds, from the repository source:
* the score-aggregation rule stated in the `generateRepositoryScorePrompt`
  text (weights 30/20/15/15/10/10 and the skill-level and badge threshold
  tables);
* the Genkit flows `generateRepositoryScoreFlow` and `analyzeRepositoryFlow`,
  modelled as functions of the generation-service response (the external
  model call is an explicit parameter);
* the `fetchRepositoryContent` tool with its per-sub-fetch failure
  containment and its in-memory cache;
* the zod schemas used to validate the service output, and the
  `analyzeRepository` server action with its input URL validation.
-/

namespace GitGrade

/-- The six dimension sub-scores (input schema of the score flow,
`GenerateRepositoryScoreInputSchema`). zod declares each field as a plain
number, so the fields are rationals here. -/
structure DimensionScores where
  codeQuality : ℚ
  projectStructure : ℚ
  documentation : ℚ
  testCoverage : ℚ
  realWorldRelevance : ℚ
  commitConsistency : ℚ
deriving DecidableEq, Repr

/-- All six sub-scores lie in the documented range 0 to 100. -/
def DimensionScores.inRange (s : DimensionScores) : Prop :=
  (0 ≤ s.codeQuality ∧ s.codeQuality ≤ 100) ∧
  (0 ≤ s.projectStructure ∧ s.projectStructure ≤ 100) ∧
  (0 ≤ s.documentation ∧ s.documentation ≤ 100) ∧
  (0 ≤ s.testCoverage ∧ s.testCoverage ≤ 100) ∧
  (0 ≤ s.realWorldRelevance ∧ s.realWorldRelevance ≤ 100) ∧
  (0 ≤ s.commitConsistency ∧ s.commitConsistency ≤ 100)

instance (s : DimensionScores) : Decidable s.inRange := by
  unfold DimensionScores.inRange
  infer_instance

/-- The weighted sum of the six sub-scores, with the weights listed in the
`generateRepositoryScorePrompt` text: code quality 30 percent, project
structure 20 percent, documentation 15 percent, test coverage 15 percent,
real-world relevance 10 percent, commit consistency 10 percent. -/
def weightedSum (s : DimensionScores) : ℚ :=
  30/100 * s.codeQuality + 20/100 * s.projectStructure +
  15/100 * s.documentation + 15/100 * s.testCoverage +
  10/100 * s.realWorldRelevance + 10/100 * s.commitConsistency

/-- Clamp an integer score to the documented 0 to 100 range. -/
def clampScore (n : ℤ) : ℤ := max 0 (min 100 n)

/-- The overall numerical score: the weighted average of the sub-scores,
rounded to the nearest integer and kept in the range 0 to 100 that the
prompt requires of the output.  This is the aggregation rule the prompt
instructs the generation service to apply; the repository contains no other
definition of the aggregation. -/
def numericalScore (s : DimensionScores) : ℤ :=
  clampScore (round (weightedSum s))

/-- Skill-level categories of `GenerateRepositoryScoreOutputSchema`. -/
inductive SkillLevel where
  | Beginner
  | Intermediate
  | Advanced
deriving DecidableEq, Repr

/-- Badge tiers of `GenerateRepositoryScoreOutputSchema`. -/
inductive Badge where
  | Bronze
  | Silver
  | Gold
deriving DecidableEq, Repr

/-- Skill-level thresholds from the prompt: Beginner 0 to 50,
Intermediate 51 to 80, Advanced 81 to 100. -/
def skillLevelOf (n : ℤ) : SkillLevel :=
  if n ≤ 50 then SkillLevel.Beginner
  else if n ≤ 80 then SkillLevel.Intermediate
  else SkillLevel.Advanced

/-- Badge thresholds from the prompt: Bronze 0 to 40, Silver 41 to 70,
Gold 71 to 100. -/
def badgeOf (n : ℤ) : Badge :=
  if n ≤ 40 then Badge.Bronze
  else if n ≤ 70 then Badge.Silver
  else Badge.Gold

/-- The verdict produced by the score flow (output schema
`GenerateRepositoryScoreOutputSchema`, with the enum fields resolved). -/
structure Verdict where
  numericalScore : ℤ
  skillLevel : SkillLevel
  badge : Badge
deriving DecidableEq, Repr

/-- The aggregation rule as a whole: weighted score plus the two threshold
tables. -/
def aggregate (s : DimensionScores) : Verdict :=
  { numericalScore := numericalScore s
    skillLevel := skillLevelOf (numericalScore s)
    badge := badgeOf (numericalScore s) }

/-- All six sub-scores equal to one value (used by the weights-sum-to-one
property). -/
def allEqual (x : ℚ) : DimensionScores :=
  { codeQuality := x, projectStructure := x, documentation := x
    testCoverage := x, realWorldRelevance := x, commitConsistency := x }

lemma weightedSum_bounds (s : DimensionScores) (h : s.inRange) :
    0 ≤ weightedSum s ∧ weightedSum s ≤ 100 := by
  obtain ⟨⟨h1l, h1r⟩, ⟨h2l, h2r⟩, ⟨h3l, h3r⟩, ⟨h4l, h4r⟩, ⟨h5l, h5r⟩, ⟨h6l, h6r⟩⟩ := h
  unfold weightedSum
  constructor <;> linarith

lemma round_bounds {x : ℚ} (h0 : 0 ≤ x) (h1 : x ≤ 100) :
    0 ≤ round x ∧ round x ≤ 100 := by
  rw [round_eq]
  constructor
  · exact Int.le_floor.mpr (by push_cast; linarith)
  · have h2 : ⌊x + 1 / 2⌋ < 101 := Int.floor_lt.mpr (by push_cast; linarith)
    omega

lemma numericalScore_eq_round (s : DimensionScores) (h : s.inRange) :
    numericalScore s = round (weightedSum s) := by
  obtain ⟨ha, hb⟩ := weightedSum_bounds s h
  obtain ⟨hc, hd⟩ := round_bounds ha hb
  unfold numericalScore clampScore
  omega

lemma numericalScore_range (s : DimensionScores) :
    0 ≤ numericalScore s ∧ numericalScore s ≤ 100 := by
  unfold numericalScore clampScore
  omega

/-- C1: for every in-range input, the aggregation rule yields the rounded
weighted sum with weights 0.30, 0.20, 0.15, 0.15, 0.10, 0.10, the clamping
to 0..100 being a no-op there; the worked example with scores 90, 80, 70,
60, 50, 75 yields 75. -/
theorem weighted_score_formula (s : DimensionScores) (h : s.inRange) :
    numericalScore s =
      round (30/100 * s.codeQuality + 20/100 * s.projectStructure +
        15/100 * s.documentation + 15/100 * s.testCoverage +
        10/100 * s.realWorldRelevance + 10/100 * s.commitConsistency) ∧
    0 ≤ numericalScore s ∧ numericalScore s ≤ 100 ∧
    numericalScore
      { codeQuality := 90, projectStructure := 80, documentation := 70
        testCoverage := 60, realWorldRelevance := 50, commitConsistency := 75 } = 75 := by
  refine ⟨numericalScore_eq_round s h, (numericalScore_range s).1,
    (numericalScore_range s).2, ?_⟩
  have hws : weightedSum
      { codeQuality := 90, projectStructure := 80, documentation := 70
        testCoverage := 60, realWorldRelevance := 50, commitConsistency := 75 } = 75 := by
    unfold weightedSum
    norm_num
  unfold numericalScore
  rw [hws]
  simp [clampScore]

/-- Witness for C1 at the worked example input. -/
theorem weighted_score_formula_witness :
    DimensionScores.inRange
      { codeQuality := 90, projectStructure := 80, documentation := 70
        testCoverage := 60, realWorldRelevance := 50, commitConsistency := 75 } ∧
    numericalScore
      { codeQuality := 90, projectStructure := 80, documentation := 70
        testCoverage := 60, realWorldRelevance := 50, commitConsistency := 75 } =
      round (30/100 * (90 : ℚ) + 20/100 * 80 + 15/100 * 70 + 15/100 * 60 +
        10/100 * 50 + 10/100 * 75) :=
  ⟨by decide,
    (weighted_score_formula
      { codeQuality := 90, projectStructure := 80, documentation := 70
        testCoverage := 60, realWorldRelevance := 50, commitConsistency := 75 }
      (by decide)).1⟩

/-- C2: for every produced verdict, the skill level and badge buckets are
characterised exactly by the documented intervals, and the boundary values
50, 80, 40, 70 fall in the lower-named bucket. -/
theorem threshold_table (s : DimensionScores) :
    ((aggregate s).skillLevel = SkillLevel.Beginner ↔
      0 ≤ numericalScore s ∧ numericalScore s ≤ 50) ∧
    ((aggregate s).skillLevel = SkillLevel.Intermediate ↔
      51 ≤ numericalScore s ∧ numericalScore s ≤ 80) ∧
    ((aggregate s).skillLevel = SkillLevel.Advanced ↔
      81 ≤ numericalScore s ∧ numericalScore s ≤ 100) ∧
    ((aggregate s).badge = Badge.Bronze ↔
      0 ≤ numericalScore s ∧ numericalScore s ≤ 40) ∧
    ((aggregate s).badge = Badge.Silver ↔
      41 ≤ numericalScore s ∧ numericalScore s ≤ 70) ∧
    ((aggregate s).badge = Badge.Gold ↔
      71 ≤ numericalScore s ∧ numericalScore s ≤ 100) ∧
    skillLevelOf 50 = SkillLevel.Beginner ∧
    skillLevelOf 51 = SkillLevel.Intermediate ∧
    skillLevelOf 80 = SkillLevel.Intermediate ∧
    skillLevelOf 81 = SkillLevel.Advanced ∧
    badgeOf 40 = Badge.Bronze ∧
    badgeOf 41 = Badge.Silver ∧
    badgeOf 70 = Badge.Silver ∧
    badgeOf 71 = Badge.Gold := by
  obtain ⟨hl, hu⟩ := numericalScore_range s
  unfold aggregate skillLevelOf badgeOf
  refine ⟨?_, ?_, ?_, ?_, ?_, ?_, by decide, by decide, by decide, by decide,
    by decide, by decide, by decide, by decide⟩ <;>
    split_ifs <;> simp_all <;> omega

/-- C4: when all six sub-scores equal an integer X in 0..100, the weights
sum to one and the numerical score is exactly X; in particular all
dimensions at 60 give verdict 60, Intermediate, Silver. -/
theorem all_equal_fixed_point (X : ℤ) (h0 : 0 ≤ X) (h1 : X ≤ 100) :
    numericalScore (allEqual (X : ℚ)) = X ∧
    aggregate (allEqual 60) =
      { numericalScore := 60, skillLevel := SkillLevel.Intermediate
        badge := Badge.Silver } := by
  constructor
  · have hsum : weightedSum (allEqual (X : ℚ)) = (X : ℚ) := by
      unfold weightedSum allEqual
      ring
    unfold numericalScore clampScore
    rw [hsum, round_intCast]
    omega
  · have hsum : weightedSum (allEqual 60) = 60 := by
      unfold weightedSum allEqual
      norm_num
    unfold aggregate numericalScore
    rw [hsum]
    simp [clampScore, skillLevelOf, badgeOf]

/-- Witness for C4 at X equal to 60. -/
theorem all_equal_fixed_point_witness :
    numericalScore (allEqual ((60 : ℤ) : ℚ)) = 60 ∧
    aggregate (allEqual 60) =
      { numericalScore := 60, skillLevel := SkillLevel.Intermediate
        badge := Badge.Silver } :=
  all_equal_fixed_point 60 (by decide) (by decide)

/-- The raw value the generation service returns for the score prompt,
before any interpretation: `GenerateRepositoryScoreOutputSchema` declares
`numericalScore` as a plain number (no range bound) and the two enum fields
as strings drawn from fixed value sets. -/
structure RawScoreOutput where
  numericalScore : ℚ
  skillLevel : String
  badge : String
deriving DecidableEq, Repr

/-- Validation that zod performs on the score output: the two enum fields
must be one of their listed values; `numericalScore` is unconstrained. -/
def scoreOutputSchemaValid (o : RawScoreOutput) : Bool :=
  (o.skillLevel == "Beginner" || o.skillLevel == "Intermediate" ||
    o.skillLevel == "Advanced") &&
  (o.badge == "Bronze" || o.badge == "Silver" || o.badge == "Gold")

/-- The body of `generateRepositoryScoreFlow`: one call to the generation
service (the prompt), whose response is schema-validated and returned.
The external service is the explicit first argument: the flow has no other
source for its result. -/
def generateRepositoryScoreFlow
    (service : DimensionScores → Option RawScoreOutput)
    (input : DimensionScores) : Except String RawScoreOutput :=
  match service input with
  | none => Except.error "no output"
  | some out =>
      if scoreOutputSchemaValid out then Except.ok out
      else Except.error "output schema violation"

/-- All six sub-scores at 60, the sample input used in the purity
counterexample. -/
def sampleScores : DimensionScores := allEqual 60

/-- A generation-service behaviour answering the score prompt with the
verdict 60 / Intermediate / Silver. -/
def serviceSilver : DimensionScores → Option RawScoreOutput :=
  fun _ => some { numericalScore := 60, skillLevel := "Intermediate", badge := "Silver" }

/-- A generation-service behaviour answering the same prompt with
99 / Advanced / Gold.  Both behaviours satisfy the output schema. -/
def serviceGold : DimensionScores → Option RawScoreOutput :=
  fun _ => some { numericalScore := 99, skillLevel := "Advanced", badge := "Gold" }

/-- C3 counterexample: the score flow is not a function of its
`DimensionScores` input alone.  Two calls with the identical input
`sampleScores` return different, schema-valid verdicts when the external
generation service answers differently, so the operation as implemented is
neither free of external calls nor deterministic in its input. -/
theorem score_flow_depends_on_service :
    generateRepositoryScoreFlow serviceSilver sampleScores ≠
      generateRepositoryScoreFlow serviceGold sampleScores ∧
    generateRepositoryScoreFlow serviceSilver sampleScores =
      Except.ok { numericalScore := 60, skillLevel := "Intermediate", badge := "Silver" } ∧
    generateRepositoryScoreFlow serviceGold sampleScores =
      Except.ok { numericalScore := 99, skillLevel := "Advanced", badge := "Gold" } := by
  refine ⟨?_, rfl, rfl⟩
  intro h
  have h2 : ({ numericalScore := 60, skillLevel := "Intermediate", badge := "Silver" }
      : RawScoreOutput) =
      { numericalScore := 99, skillLevel := "Advanced", badge := "Gold" } :=
    Except.ok.inj h
  simp at h2

/-- C3 amended: the flow is deterministic only relative to the
generation-service response: whenever the service returns the same raw
response, the flow returns the same result; the aggregation rule itself
(`aggregate`) is a pure function of the sub-scores. -/
theorem score_flow_deterministic_given_response
    (r1 r2 : DimensionScores → Option RawScoreOutput)
    (s1 s2 : DimensionScores) (h : r1 s1 = r2 s2) :
    generateRepositoryScoreFlow r1 s1 = generateRepositoryScoreFlow r2 s2 := by
  unfold generateRepositoryScoreFlow
  rw [h]

/-- Witness for the amended C3 at a concrete service and input. -/
theorem score_flow_deterministic_given_response_witness :
    generateRepositoryScoreFlow serviceSilver sampleScores =
      generateRepositoryScoreFlow serviceSilver (allEqual 60) :=
  score_flow_deterministic_given_response serviceSilver serviceSilver
    sampleScores (allEqual 60) rfl

/-- Outcome of one sub-fetch against the repository host, as the tool body
observes it: the call returned usable content, the call returned but
without a usable content field (for example no `content` key, or no
default branch), or the call threw and was caught by the surrounding
`try`/`catch`. -/
inductive SubFetch (α : Type) where
  | ok (content : α)
  | okNoContent
  | err
deriving DecidableEq, Repr

/-- The three independent host responses consumed by one run of the
`fetchRepositoryContent` tool body: decoded README text, decoded
package.json text, and the recursive tree as a list of paths. -/
structure HostResponses where
  readme : SubFetch String
  packageJson : SubFetch String
  fileTree : SubFetch (List String)
deriving DecidableEq, Repr

/-- The tool's output value: each field is optional and absent exactly when
its own sub-fetch produced no usable content. -/
structure ContentSnapshot where
  readme : Option String
  packageJson : Option String
  fileTree : Option String
deriving DecidableEq, Repr

/-- The in-memory `repoContentCache`, keyed by the repository URL. -/
abbrev Cache := List (String × ContentSnapshot)

/-- The only error the tool body can raise itself: the URL did not match
the `github.com/owner/repo` pattern. -/
inductive FetchError where
  | invalidUrl
deriving DecidableEq, Repr

/-- After an occurrence of `github.com/`, the regex requires one or more
non-slash characters (the owner), a slash, then one or more non-slash
characters (the repository name). -/
def ownerRepoAfter (l : List Char) : Option (String × String) :=
  let owner := l.takeWhile (fun c => c ≠ '/')
  match l.dropWhile (fun c => c ≠ '/') with
  | '/' :: rest =>
      let repo := rest.takeWhile (fun c => c ≠ '/')
      if owner ≠ [] ∧ repo ≠ [] then some (owner.asString, repo.asString)
      else none
  | _ => none

/-- Scan the character list for an occurrence of `github.com/` followed by
an owner/repo pair, as the search regex does. -/
def githubMatchAux : List Char → Option (String × String)
  | [] => none
  | c :: rest =>
      if (c :: rest).take 11 = "github.com/".toList then
        match ownerRepoAfter ((c :: rest).drop 11) with
        | some p => some p
        | none => githubMatchAux rest
      else githubMatchAux rest

/-- The URL check the tool body performs: search the URL for the pattern
`github.com/` followed by a non-empty owner segment and a non-empty
repository segment, returning the pair on success. -/
def githubRepoMatch (s : String) : Option (String × String) :=
  githubMatchAux s.toList

/-- Project the content out of a sub-fetch outcome, applying a decoding
step to successful content; failed or content-less sub-fetches give an
absent field. -/
def subFetchContent {α β : Type} (f : α → β) : SubFetch α → Option β
  | SubFetch.ok c => some (f c)
  | SubFetch.okNoContent => none
  | SubFetch.err => none

/-- The body of the `fetchRepositoryContent` tool: answer from the cache if
the URL is present; otherwise reject URLs without the owner/repo pattern;
otherwise build the snapshot from the three independent sub-fetches, store
it in the cache, and return it.  The boolean records whether the external
host was contacted during the call. -/
def fetchRepositoryContent (host : HostResponses) (cache : Cache)
    (repoUrl : String) : Except FetchError (ContentSnapshot × Cache × Bool) :=
  match List.lookup repoUrl cache with
  | some snap => Except.ok (snap, cache, false)
  | none =>
      match githubRepoMatch repoUrl with
      | none => Except.error FetchError.invalidUrl
      | some _ =>
          let snap : ContentSnapshot :=
            { readme := subFetchContent id host.readme
              packageJson := subFetchContent id host.packageJson
              fileTree := subFetchContent (String.intercalate "\n") host.fileTree }
          Except.ok (snap, (repoUrl, snap) :: cache, true)

/-- Running a sequence of fetch requests against the same host, threading
the cache through; a failed request leaves the cache unchanged. -/
def runFetches (host : HostResponses) (urls : List String) (cache : Cache) : Cache :=
  urls.foldl (fun c u =>
    match fetchRepositoryContent host c u with
    | Except.ok (_, cNext, _) => cNext
    | Except.error _ => c) cache

lemma fetch_preserves_entry {host : HostResponses} {c : Cache} {u : String}
    {snap : ContentSnapshot} {cNext : Cache} {b : Bool}
    (h : fetchRepositoryContent host c u = Except.ok (snap, cNext, b))
    {k : String} {v : ContentSnapshot} (hk : List.lookup k c = some v) :
    List.lookup k cNext = some v := by
  unfold fetchRepositoryContent at h
  cases hc : List.lookup u c with
  | some s =>
      rw [hc] at h
      cases h
      exact hk
  | none =>
      rw [hc] at h
      cases hm : githubRepoMatch u with
      | none => rw [hm] at h; cases h
      | some p =>
          rw [hm] at h
          cases h
          have hne : (k == u) = false := by
            cases heq : k == u with
            | true =>
                rw [eq_of_beq heq] at hk
                rw [hk] at hc
                cases hc
            | false => rfl
          simpa [List.lookup, hne] using hk

lemma runFetches_preserves_entry (host : HostResponses) (urls : List String)
    (c : Cache) {k : String} {v : ContentSnapshot}
    (hk : List.lookup k c = some v) :
    List.lookup k (runFetches host urls c) = some v := by
  induction urls generalizing c with
  | nil => simpa [runFetches] using hk
  | cons u us ih =>
      show List.lookup k (runFetches host us
        (match fetchRepositoryContent host c u with
          | Except.ok (_, cNext, _) => cNext
          | Except.error _ => c)) = some v
      cases hr : fetchRepositoryContent host c u with
      | ok r =>
          obtain ⟨snap, cNext, b⟩ := r
          simpa [hr] using ih cNext (fetch_preserves_entry hr hk)
      | error e => simpa [hr] using ih c hk

/-- C5: for a URL matching the owner/repo pattern the fetch never fails as
a whole, and each sub-fetch fails only its own field: when the README
retrieval errors while package.json and the tree succeed, the snapshot has
`readme` absent and the other two fields populated. -/
theorem fetch_contains_failures (host : HostResponses) (cache : Cache)
    (url : String) (hv : (githubRepoMatch url).isSome) :
    (∃ snap cacheNext b,
      fetchRepositoryContent host cache url = Except.ok (snap, cacheNext, b)) ∧
    (List.lookup url cache = none →
      host.readme = SubFetch.err →
      ∀ p t, host.packageJson = SubFetch.ok p → host.fileTree = SubFetch.ok t →
        fetchRepositoryContent host cache url =
          Except.ok
            ({ readme := none, packageJson := some p
               fileTree := some (String.intercalate "\n" t) },
             (url,
              { readme := none, packageJson := some p
                fileTree := some (String.intercalate "\n" t) }) :: cache,
             true)) := by
  obtain ⟨pair, hm⟩ := Option.isSome_iff_exists.mp hv
  constructor
  · unfold fetchRepositoryContent
    cases hc : List.lookup url cache with
    | some snap => exact ⟨snap, cache, false, rfl⟩
    | none =>
        rw [hm]
        exact ⟨_, _, _, rfl⟩
  · intro hc hr p t hp ht
    unfold fetchRepositoryContent
    rw [hc, hm, hr, hp, ht]
    rfl

/-- Witness for C5: a concrete host where only the README sub-fetch fails,
fetched through a concrete GitHub URL with an empty cache. -/
theorem fetch_contains_failures_witness :
    fetchRepositoryContent
      { readme := SubFetch.err, packageJson := SubFetch.ok "pkg"
        fileTree := SubFetch.ok ["README.md", "src/index.ts"] }
      [] "https://github.com/alice/proj" =
    Except.ok
      ({ readme := none, packageJson := some "pkg"
         fileTree := some (String.intercalate "\n" ["README.md", "src/index.ts"]) },
       ("https://github.com/alice/proj",
        { readme := none, packageJson := some "pkg"
          fileTree := some (String.intercalate "\n" ["README.md", "src/index.ts"]) }) :: [],
       true) :=
  (fetch_contains_failures
      { readme := SubFetch.err, packageJson := SubFetch.ok "pkg"
        fileTree := SubFetch.ok ["README.md", "src/index.ts"] }
      [] "https://github.com/alice/proj" (by decide)).2
    rfl rfl "pkg" ["README.md", "src/index.ts"] rfl rfl

/-- C6: once a fetch has contacted the host and stored the snapshot, a
second fetch for the same URL returns the stored snapshot without
contacting the host and leaves the cache unchanged; a completed fetch
preserves every existing cache entry, and no later sequence of fetches
ever overwrites an entry once written. -/
theorem cache_write_once (host : HostResponses) (cache : Cache) (url : String)
    (snap : ContentSnapshot) (cacheNext : Cache)
    (h : fetchRepositoryContent host cache url = Except.ok (snap, cacheNext, true)) :
    fetchRepositoryContent host cacheNext url = Except.ok (snap, cacheNext, false) ∧
    (∀ k v, List.lookup k cache = some v → List.lookup k cacheNext = some v) ∧
    (∀ urls k v, List.lookup k cacheNext = some v →
      List.lookup k (runFetches host urls cacheNext) = some v) := by
  refine ⟨?_, fun k v hk => fetch_preserves_entry h hk,
    fun urls k v hk => runFetches_preserves_entry host urls cacheNext hk⟩
  unfold fetchRepositoryContent at h
  cases hc : List.lookup url cache with
  | some s =>
      rw [hc] at h
      cases h
  | none =>
      rw [hc] at h
      cases hm : githubRepoMatch url with
      | none => rw [hm] at h; cases h
      | some p =>
          rw [hm] at h
          cases h
          unfold fetchRepositoryContent
          simp [List.lookup]

/-- Witness for C6: the first fetch of a concrete GitHub URL on an empty
cache contacts the host; the theorem then yields the cached second fetch
and the preservation facts. -/
theorem cache_write_once_witness :
    fetchRepositoryContent
      { readme := SubFetch.ok "hello", packageJson := SubFetch.okNoContent
        fileTree := SubFetch.err }
      [("https://github.com/alice/proj",
        { readme := some "hello", packageJson := none, fileTree := none })]
      "https://github.com/alice/proj" =
    Except.ok
      ({ readme := some "hello", packageJson := none, fileTree := none },
       [("https://github.com/alice/proj",
         { readme := some "hello", packageJson := none, fileTree := none })],
       false) :=
  (cache_write_once
    { readme := SubFetch.ok "hello", packageJson := SubFetch.okNoContent
      fileTree := SubFetch.err }
    [] "https://github.com/alice/proj"
    { readme := some "hello", packageJson := none, fileTree := none }
    [("https://github.com/alice/proj",
      { readme := some "hello", packageJson := none, fileTree := none })]
    rfl).1

/-- The raw dimension-score object as the generation service returns it:
each field may be missing, and when present is an arbitrary number; the zod
schema then requires presence and the 0..100 range. -/
structure RawAnalysisScores where
  codeQuality : Option ℚ
  projectStructure : Option ℚ
  documentation : Option ℚ
  testCoverage : Option ℚ
  realWorldRelevance : Option ℚ
  commitConsistency : Option ℚ
deriving DecidableEq, Repr

/-- One field passes the `z.number().min(0).max(100)` check: it must be
present and lie in 0..100. -/
def fieldInRange : Option ℚ → Bool
  | some q => decide (0 ≤ q) && decide (q ≤ 100)
  | none => false

/-- The dimension-score part of `AnalyzeRepositoryOutputSchema`: all six
fields present and in range. -/
def analysisScoresValid (a : RawAnalysisScores) : Bool :=
  fieldInRange a.codeQuality && fieldInRange a.projectStructure &&
  fieldInRange a.documentation && fieldInRange a.testCoverage &&
  fieldInRange a.realWorldRelevance && fieldInRange a.commitConsistency

/-- One roadmap step as returned by the service (`RoadmapStepSchema`). -/
structure RoadmapStep where
  step : String
  priority : String
  effortEstimate : String
deriving DecidableEq, Repr

/-- The zod check on one roadmap step: the priority must be one of the
three enum values; the two text fields are unconstrained strings. -/
def roadmapStepValid (r : RoadmapStep) : Bool :=
  r.priority == "High" || r.priority == "Medium" || r.priority == "Low"

/-- The full raw output of the single analysis prompt of the canonical
`analyzeRepositoryFlow`: dimension scores, verdict, summary text and
roadmap (the nested summary object is flattened to its only string
field). -/
structure RawAnalyzeOutput where
  analysis : RawAnalysisScores
  score : RawScoreOutput
  summary : String
  roadmap : List RoadmapStep
deriving DecidableEq, Repr

/-- `AnalyzeRepositoryOutputSchema` validation of the service output:
in-range dimension scores, enum-valid verdict fields, and elementwise
roadmap-step validation.  Mirroring the zod source, `z.array` imposes no
length constraint on the roadmap, and `numericalScore` has no range
bound. -/
def analyzeOutputSchemaValid (o : RawAnalyzeOutput) : Bool :=
  analysisScoresValid o.analysis && scoreOutputSchemaValid o.score &&
  o.roadmap.all roadmapStepValid

/-- The result assembled by the flow: the validated raw output plus the
caller's repository URL, which the flow injects back after the generation
step. -/
structure AnalyzeRepositoryOutput where
  analysis : RawAnalysisScores
  score : RawScoreOutput
  summary : String
  roadmap : List RoadmapStep
  repoUrl : String
deriving DecidableEq, Repr

/-- The body of the canonical `analyzeRepositoryFlow`: one call to the
analysis prompt (the generation service, indexed by attempt number so that
the use of later attempts is observable), failure when no output comes
back, schema validation of the output, and injection of the repository URL
into the assembled result. -/
def analyzeRepositoryFlowModel (service : ℕ → Option RawAnalyzeOutput)
    (repoUrl : String) : Except String AnalyzeRepositoryOutput :=
  match service 0 with
  | none => Except.error "Failed to get analysis from AI. The model did not return a valid output."
  | some out =>
      if analyzeOutputSchemaValid out then
        Except.ok
          { analysis := out.analysis, score := out.score, summary := out.summary
            roadmap := out.roadmap, repoUrl := repoUrl }
      else Except.error "The AI returned data in an unexpected format."

/-- The `z.string().url()` input check of the `analyzeRepository` server
action, modelled for the http and https schemes: a scheme marker followed
by a non-empty remainder. -/
def isValidUrlZ (s : String) : Bool :=
  (s.toList.take 7 == "http://".toList && decide (7 < s.toList.length)) ||
  (s.toList.take 8 == "https://".toList && decide (8 < s.toList.length))

/-- External calls observable at the entry point.  The generation-service
call is issued by the flow itself; any repository-host traffic happens only
inside that call, when the model invokes the fetch tool. -/
inductive ExternalCall where
  | generationService
deriving DecidableEq, Repr

/-- The `analyzeRepository` server action: validate the input URL with zod,
failing before any external work when it is not a URL; otherwise run the
flow, which issues the generation-service call.  The second component
lists the external calls issued. -/
def analyzeRepository (service : ℕ → Option RawAnalyzeOutput)
    (repoUrl : String) :
    Except String AnalyzeRepositoryOutput × List ExternalCall :=
  if isValidUrlZ repoUrl then
    (analyzeRepositoryFlowModel service repoUrl, [ExternalCall.generationService])
  else
    (Except.error "Invalid input: Invalid url", [])

/-- A fully schema-valid service output: in-range scores, enum-valid
verdict, and a three-step roadmap. -/
def validAnalysisOut : RawAnalyzeOutput :=
  { analysis :=
      { codeQuality := some 90, projectStructure := some 80
        documentation := some 70, testCoverage := some 60
        realWorldRelevance := some 50, commitConsistency := some 75 }
    score := { numericalScore := 75, skillLevel := "Intermediate", badge := "Gold" }
    summary := "Solid project with weak tests."
    roadmap :=
      [ { step := "Add unit tests", priority := "High", effortEstimate := "2 days" },
        { step := "Expand the README", priority := "Medium", effortEstimate := "1 day" },
        { step := "Set up CI", priority := "Low", effortEstimate := "3 days" } ] }

/-- The same output with one dimension score out of range (code quality at
150), which the schema rejects. -/
def invalidAnalysisOut : RawAnalyzeOutput :=
  { validAnalysisOut with
      analysis := { validAnalysisOut.analysis with codeQuality := some 150 } }

/-- A service whose first response is the out-of-range output and whose
second response would be fully valid. -/
def svcInvalidThenValid : ℕ → Option RawAnalyzeOutput :=
  fun n => if n = 0 then some invalidAnalysisOut else some validAnalysisOut

/-- A service all of whose responses are the out-of-range output. -/
def svcAlwaysInvalid : ℕ → Option RawAnalyzeOutput :=
  fun _ => some invalidAnalysisOut

/-- C7 counterexample: the flow performs no corrective retry.  With a
service whose first response is invalid and whose second response would be
perfectly valid, the analysis still fails, and the result is identical to
the run where every response is invalid: the second attempt is never
consulted, refuting the claimed retry-once behaviour. -/
theorem no_corrective_retry :
    analyzeOutputSchemaValid validAnalysisOut = true ∧
    analyzeOutputSchemaValid invalidAnalysisOut = false ∧
    analyzeRepositoryFlowModel svcInvalidThenValid "https://github.com/alice/proj" =
      Except.error "The AI returned data in an unexpected format." ∧
    analyzeRepositoryFlowModel svcInvalidThenValid "https://github.com/alice/proj" =
      analyzeRepositoryFlowModel svcAlwaysInvalid "https://github.com/alice/proj" :=
  ⟨rfl, rfl, rfl, rfl⟩

/-- C7 amended: when the dimension-analysis response is missing or fails
the 0..100/presence validation, the analysis fails immediately with a
typed error and no result is returned; no corrective retry is attempted,
since the flow's outcome depends only on the first service response. -/
theorem analysis_fails_without_retry (service : ℕ → Option RawAnalyzeOutput)
    (url : String)
    (h : ∀ out, service 0 = some out → analyzeOutputSchemaValid out = false) :
    (∃ e, analyzeRepositoryFlowModel service url = Except.error e) ∧
    (∀ service2 : ℕ → Option RawAnalyzeOutput, service2 0 = service 0 →
      analyzeRepositoryFlowModel service2 url =
        analyzeRepositoryFlowModel service url) := by
  constructor
  · cases hs : service 0 with
    | none =>
        exact ⟨"Failed to get analysis from AI. The model did not return a valid output.",
          by simp [analyzeRepositoryFlowModel, hs]⟩
    | some out =>
        exact ⟨"The AI returned data in an unexpected format.",
          by simp [analyzeRepositoryFlowModel, hs, h out hs]⟩
  · intro service2 hs
    unfold analyzeRepositoryFlowModel
    rw [hs]

/-- Witness for the amended C7 at the concrete always-invalid service. -/
theorem analysis_fails_without_retry_witness :
    (∃ e, analyzeRepositoryFlowModel svcAlwaysInvalid "https://github.com/alice/proj" =
      Except.error e) ∧
    (∀ service2 : ℕ → Option RawAnalyzeOutput, service2 0 = svcAlwaysInvalid 0 →
      analyzeRepositoryFlowModel service2 "https://github.com/alice/proj" =
        analyzeRepositoryFlowModel svcAlwaysInvalid "https://github.com/alice/proj") :=
  analysis_fails_without_retry svcAlwaysInvalid "https://github.com/alice/proj"
    (fun out h => by
      have h2 : invalidAnalysisOut = out := Option.some.inj h
      rw [← h2]
      rfl)

/-- The valid output with its roadmap emptied. -/
def emptyRoadmapOut : RawAnalyzeOutput := { validAnalysisOut with roadmap := [] }

/-- Six individually valid roadmap steps. -/
def sixSteps : List RoadmapStep :=
  [ { step := "a", priority := "High", effortEstimate := "1 day" },
    { step := "b", priority := "High", effortEstimate := "1 day" },
    { step := "c", priority := "Medium", effortEstimate := "1 day" },
    { step := "d", priority := "Medium", effortEstimate := "1 day" },
    { step := "e", priority := "Low", effortEstimate := "1 day" },
    { step := "f", priority := "Low", effortEstimate := "1 day" } ]

/-- C8 counterexample: the schemas impose no roadmap length bound.  An
output whose roadmap is empty passes validation and is returned by the
flow as a valid result, and a six-step roadmap also passes, refuting the
claim that results outside 3..5 steps are rejected as schema violations. -/
theorem roadmap_length_not_validated :
    analyzeOutputSchemaValid emptyRoadmapOut = true ∧
    analyzeRepositoryFlowModel (fun _ => some emptyRoadmapOut)
        "https://github.com/alice/proj" =
      Except.ok
        { analysis := emptyRoadmapOut.analysis, score := emptyRoadmapOut.score
          summary := emptyRoadmapOut.summary, roadmap := []
          repoUrl := "https://github.com/alice/proj" } ∧
    analyzeOutputSchemaValid { validAnalysisOut with roadmap := sixSteps } = true ∧
    sixSteps.length = 6 :=
  ⟨rfl, rfl, rfl, rfl⟩

/-- C8 amended: the schemas validate each roadmap step's shape (the
priority must be High, Medium or Low) but never its count: replacing the
roadmap of a schema-valid output by any list of individually valid steps,
of any length including zero, leaves the output schema-valid. -/
theorem roadmap_validation_is_elementwise (o : RawAnalyzeOutput)
    (steps : List RoadmapStep)
    (ho : analyzeOutputSchemaValid o = true)
    (hs : ∀ r ∈ steps, roadmapStepValid r = true) :
    analyzeOutputSchemaValid { o with roadmap := steps } = true := by
  unfold analyzeOutputSchemaValid at ho ⊢
  simp only [Bool.and_eq_true] at ho ⊢
  exact ⟨⟨ho.1.1, ho.1.2⟩, List.all_eq_true.mpr hs⟩

/-- Witness for the amended C8: the empty roadmap keeps the valid output
schema-valid. -/
theorem roadmap_validation_is_elementwise_witness :
    analyzeOutputSchemaValid { validAnalysisOut with roadmap := [] } = true :=
  roadmap_validation_is_elementwise validAnalysisOut [] rfl
    (fun r hr => absurd hr (List.not_mem_nil r))

/-- A syntactically valid URL that carries no `github.com/owner/name`
shape. -/
def nonGithubUrl : String := "https://example.com/not-a-repo"

/-- C9 counterexample: the entry point's input validation checks only URL
syntax, not the owner/name shape.  For a well-formed non-GitHub URL the
input passes validation and the generation-service call is issued even
though no owner/name pair exists, refuting the claim that such inputs fail
before any external call. -/
theorem invalid_reference_after_external_call :
    isValidUrlZ nonGithubUrl = true ∧
    githubRepoMatch nonGithubUrl = none ∧
    (analyzeRepository (fun _ => none) nonGithubUrl).2 =
      [ExternalCall.generationService] :=
  ⟨rfl, rfl, rfl⟩

/-- C9 amended: inputs rejected by the zod URL validation fail before any
external call with an invalid-input error and an empty call list; the
owner/name-shape check happens only later, inside the fetch tool. -/
theorem invalid_url_fails_before_calls (service : ℕ → Option RawAnalyzeOutput)
    (url : String) (h : isValidUrlZ url = false) :
    analyzeRepository service url =
      (Except.error "Invalid input: Invalid url", []) := by
  unfold analyzeRepository
  rw [h]
  rfl

/-- Witness for the amended C9 at a concrete non-URL input. -/
theorem invalid_url_fails_before_calls_witness :
    analyzeRepository (fun _ => none) "not a url" =
      (Except.error "Invalid input: Invalid url", []) :=
  invalid_url_fails_before_calls (fun _ => none) "not a url" rfl

/-- C10: every successfully assembled result carries the caller's
repository URL unchanged: the flow injects the input URL back into the
output after the generation step. -/
theorem repo_url_passthrough (service : ℕ → Option RawAnalyzeOutput)
    (url : String) (out : AnalyzeRepositoryOutput) (calls : List ExternalCall)
    (h : analyzeRepository service url = (Except.ok out, calls)) :
    out.repoUrl = url := by
  unfold analyzeRepository at h
  by_cases hu : isValidUrlZ url
  · rw [if_pos hu] at h
    have hflow : analyzeRepositoryFlowModel service url = Except.ok out :=
      congrArg Prod.fst h
    unfold analyzeRepositoryFlowModel at hflow
    split at hflow
    · cases hflow
    · split at hflow
      · have h2 := Except.ok.inj hflow
        rw [← h2]
      · cases hflow
  · rw [if_neg hu] at h
    have h3 : Except.error "Invalid input: Invalid url" = Except.ok out :=
      congrArg Prod.fst h
    cases h3

/-- Witness for C10: a concrete successful run whose result carries the
input URL. -/
theorem repo_url_passthrough_witness :
    (analyzeRepository (fun _ => some validAnalysisOut)
        "https://github.com/alice/proj").1 =
      Except.ok
        { analysis := validAnalysisOut.analysis, score := validAnalysisOut.score
          summary := validAnalysisOut.summary, roadmap := validAnalysisOut.roadmap
          repoUrl := "https://github.com/alice/proj" } ∧
    ({ analysis := validAnalysisOut.analysis, score := validAnalysisOut.score
       summary := validAnalysisOut.summary, roadmap := validAnalysisOut.roadmap
       repoUrl := "https://github.com/alice/proj" }
        : AnalyzeRepositoryOutput).repoUrl = "https://github.com/alice/proj" :=
  ⟨rfl,
    repo_url_passthrough (fun _ => some validAnalysisOut)
      "https://github.com/alice/proj"
      { analysis := validAnalysisOut.analysis, score := validAnalysisOut.score
        summary := validAnalysisOut.summary, roadmap := validAnalysisOut.roadmap
        repoUrl := "https://github.com/alice/proj" }
      [ExternalCall.generationService] rfl⟩

end GitGrade
